import Mathlib

/-!
Verification of the snow-utils-skills repository against its specification.

The Lean definitions below are shallow embeddings of the Python sources:
  - src/common/src/snow_utils_common/snow_common.py   (masking, snow CLI adapter)
  - src/snow-utils-pat/scripts/network_presets.py     (enums, mode/type table, CIDR collection)
  - src/snow-utils-networks/scripts/network.py        (network rule / policy reconciler)
  - src/iceberg-external-volume/scripts/extvolume.py  (external-volume workflow, backoff waiter)

Python strings are modelled as `String` / `List Char`; the handful of `str`
methods the sources use (`split`, `replace`, `in`, `upper`, slicing) are given
explicit structural implementations so that every definition evaluates inside
the kernel.  Floating-point delays are idealised as rationals: the sources use
them only through `*` and `min`, whose algebraic structure is what the spec
describes.  External effects (subprocess spawns, AWS API calls, `click.echo`)
are reified as trace elements; exceptions are modelled with `Except` or with
explicit error components.
-/

/-! ## Python string-method helpers -/

/-- Boolean test that `pat` is a leading segment of `s` (used to model
`str.startswith` and as the scanning step of substring search). -/
def seqStarts (pat s : List Char) : Bool :=
  match pat, s with
  | [], _ => true
  | _ :: _, [] => false
  | p :: ps, c :: cs => p == c && seqStarts ps cs

/-- Python `pat in s` (contiguous substring occurrence). -/
def occursIn (pat : List Char) : List Char → Bool
  | [] => pat.isEmpty
  | c :: rest => seqStarts pat (c :: rest) || occursIn pat rest

/-- Python `s.split(sep)` for a one-character separator: always returns at
least one (possibly empty) chunk, and empty chunks between adjacent
separators are kept. -/
def pySplitChar (sep : Char) : List Char → List (List Char)
  | [] => [[]]
  | c :: rest =>
    if c = sep then [] :: pySplitChar sep rest
    else
      match pySplitChar sep rest with
      | [] => [[c]]
      | h :: t => (c :: h) :: t

/-- Python `value.replace("/32", "")`: left-to-right, non-overlapping removal
of every occurrence of the three characters `/32`. -/
def remove32 : List Char → List Char
  | '/' :: '3' :: '2' :: rest => remove32 rest
  | c :: rest => c :: remove32 rest
  | [] => []

/-- Python `s.replace(pat, rep)` for a non-empty `pat`, with the remaining
length of the scanned text as structural fuel. -/
def pyReplaceAux (pat rep : List Char) : Nat → List Char → List Char
  | _, [] => []
  | 0, s => s
  | fuel + 1, c :: rest =>
    if seqStarts pat (c :: rest) then
      rep ++ pyReplaceAux pat rep fuel (List.drop (pat.length - 1) rest)
    else
      c :: pyReplaceAux pat rep fuel rest

/-- Python `s.replace(pat, rep)` on `String`s (non-empty `pat`). -/
def pyReplace (s pat rep : String) : String :=
  String.mk (pyReplaceAux pat.toList rep.toList s.toList.length s.toList)

/-- Python `s.upper()` (ASCII case mapping suffices for the identifiers the
sources handle). -/
def listUpper (l : List Char) : List Char := l.map Char.toUpper

/-- Python `", ".join(parts)` generalised to a one-character separator. -/
def intercalateChar (sep : Char) : List (List Char) → List Char
  | [] => []
  | [p] => p
  | p :: rest => p ++ sep :: intercalateChar sep rest

/-- Worker for `dict.fromkeys` de-duplication: drop every element already in
`seen` or already emitted, keeping first occurrences in order. -/
def dedupSeen (seen : List String) : List String → List String
  | [] => []
  | x :: rest =>
    if x ∈ seen then dedupSeen seen rest
    else x :: dedupSeen (x :: seen) rest

/-- Python `list(dict.fromkeys(l))`: remove duplicates keeping the first
occurrence of each element. -/
def dedupFirst (l : List String) : List String := dedupSeen [] l

/-- Python `repr` of a list of strings, as interpolated by an f-string
(e.g. `['IPV4', 'AWSVPCEID']`). -/
def pyListRepr (l : List String) : String :=
  "[" ++ String.intercalate ", " (l.map (fun s => "\x27" ++ s ++ "\x27")) ++ "]"

/-! ## Sensitive-value masking
(src/common/src/snow_utils_common/snow_common.py, lines 128-181)

The module-level `_snow_cli_options.mask_sensitive` flag is threaded through
as the explicit `maskEnabled` argument. -/

/-- `mask_aws_account_id`: `123456789012 -> 1234****9012`; any value that is
not exactly 12 digits is returned unchanged. -/
def mask_aws_account_id (value : String) : String :=
  let v := value.toList
  if v.length = 12 && v.all Char.isDigit then
    String.mk (v.take 4 ++ ('*' :: '*' :: '*' :: '*' :: []) ++ v.drop 8)
  else value

/-- Core of `mask_ip_address` on character lists: strip `/32`, split on dots,
and when exactly four parts result, keep the first two and replace the last
two with `***`, re-appending `/32` when the original value contained it. -/
def mask_ip_list (v : List Char) : List Char :=
  let stripped := remove32 v
  match pySplitChar '.' stripped with
  | [p0, p1, _, _] =>
    let masked := p0 ++ '.' :: p1 ++ ('.' :: '*' :: '*' :: '*' :: '.' :: '*' :: '*' :: '*' :: [])
    if occursIn ('/' :: '3' :: '2' :: []) v then masked ++ ('/' :: '3' :: '2' :: []) else masked
  | _ => v

/-- `mask_ip_address`: `192.168.1.100 -> 192.168.***.***` (a `/32` suffix is
re-appended after masking). -/
def mask_ip_address (value : String) : String :=
  String.mk (mask_ip_list value.toList)

/-- `mask_external_id`: full mask when the value has at most 6 characters,
otherwise keep the first 3 and last 3 characters around a run of `*`. -/
def mask_external_id (value : String) : String :=
  let v := value.toList
  if v.length ≤ 6 then String.mk (List.replicate v.length '*')
  else String.mk (v.take 3 ++ List.replicate (v.length - 6) '*' ++ v.drop (v.length - 3))

/-- Matcher for the Python regex `(arn:aws:[^:]+:[^:]*:)(\d{12})(:.+)` applied
with `re.match`, for newline-free values: split on `:` and require the shape
`arn:aws:<svc≠ε>:<region>:<12 digits>:<rest≠ε>`. -/
def mask_arn (value : String) : String :=
  match pySplitChar ':' value.toList with
  | p0 :: p1 :: svc :: region :: acct :: restParts =>
    let rest := intercalateChar ':' restParts
    if p0 = ('a' :: 'r' :: 'n' :: []) && p1 = ('a' :: 'w' :: 's' :: []) && !svc.isEmpty
        && acct.length = 12 && acct.all Char.isDigit && !restParts.isEmpty && !rest.isEmpty then
      String.mk (p0 ++ ':' :: p1 ++ ':' :: svc ++ ':' :: region ++ ':' ::
        (acct.take 4 ++ ('*' :: '*' :: '*' :: '*' :: []) ++ acct.drop 8) ++ ':' :: rest)
    else value
  | _ => value

/-- Matcher for the Python regex `^\d+\.\d+\.\d+\.\d+(/\d+)?$` used by the
auto-detection branch of `mask_sensitive_string`: a dotted quad of non-empty
digit groups, optionally followed by `/` and a non-empty digit group. -/
def matchIpRegex (s : List Char) : Bool :=
  let quad : List Char → Bool := fun l =>
    match pySplitChar '.' l with
    | [a, b, c, d] =>
      !a.isEmpty && a.all Char.isDigit && !b.isEmpty && b.all Char.isDigit
        && !c.isEmpty && c.all Char.isDigit && !d.isEmpty && d.all Char.isDigit
    | _ => false
  match pySplitChar '/' s with
  | [ip] => quad ip
  | [ip, n] => quad ip && !n.isEmpty && n.all Char.isDigit
  | _ => false

/-- `mask_sensitive_string(value, mask_type)`: dispatch on the requested kind,
with auto-detection of 12-digit account ids, dotted-quad IPs and `arn:aws:`
values.  `maskEnabled` models the process-wide `mask_sensitive` option; when
false the value passes through unmasked. -/
def mask_sensitive_string (maskEnabled : Bool) (value : String) (maskType : String) : String :=
  if !maskEnabled then value
  else
    let is_account_id :=
      maskType == "aws_account_id"
        || (maskType == "auto" && value.toList.length == 12 && value.toList.all Char.isDigit)
    if is_account_id then mask_aws_account_id value
    else
      let is_ip := maskType == "ip" || (maskType == "auto" && matchIpRegex value.toList)
      if is_ip then mask_ip_address value
      else if maskType == "arn"
          || (maskType == "auto" && seqStarts "arn:aws:".toList value.toList) then
        mask_arn value
      else if maskType == "external_id" then mask_external_id value
      else value

/-! ## Network rule enums and the mode/type compatibility table
(src/snow-utils-pat/scripts/network_presets.py, lines 32-67) -/

/-- `NetworkRuleMode` enum. -/
inductive NetworkRuleMode
  | INGRESS
  | INTERNAL_STAGE
  | EGRESS
  | POSTGRES_INGRESS
  | POSTGRES_EGRESS
deriving DecidableEq, Repr

/-- `NetworkRuleType` enum. -/
inductive NetworkRuleType
  | IPV4
  | HOST_PORT
  | PRIVATE_HOST_PORT
  | AWSVPCEID
deriving DecidableEq, Repr

/-- The `.value` string of a `NetworkRuleMode` member. -/
def modeValue : NetworkRuleMode → String
  | .INGRESS => "INGRESS"
  | .INTERNAL_STAGE => "INTERNAL_STAGE"
  | .EGRESS => "EGRESS"
  | .POSTGRES_INGRESS => "POSTGRES_INGRESS"
  | .POSTGRES_EGRESS => "POSTGRES_EGRESS"

/-- The `.value` string of a `NetworkRuleType` member. -/
def typeValue : NetworkRuleType → String
  | .IPV4 => "IPV4"
  | .HOST_PORT => "HOST_PORT"
  | .PRIVATE_HOST_PORT => "PRIVATE_HOST_PORT"
  | .AWSVPCEID => "AWSVPCEID"

/-- The `VALID_MODE_TYPES` dictionary. -/
def VALID_MODE_TYPES : NetworkRuleMode → List NetworkRuleType
  | .INGRESS => [.IPV4, .AWSVPCEID]
  | .INTERNAL_STAGE => [.IPV4, .AWSVPCEID]
  | .EGRESS => [.IPV4, .HOST_PORT]
  | .POSTGRES_INGRESS => [.IPV4, .AWSVPCEID]
  | .POSTGRES_EGRESS => [.IPV4, .HOST_PORT]

/-- `validate_mode_type`: membership in the compatibility table. -/
def validate_mode_type (mode : NetworkRuleMode) (rule_type : NetworkRuleType) : Bool :=
  (VALID_MODE_TYPES mode).contains rule_type

/-- `get_valid_types_for_mode`: the `.value` names of the allowed types. -/
def get_valid_types_for_mode (mode : NetworkRuleMode) : List String :=
  (VALID_MODE_TYPES mode).map typeValue

/-- The `click.ClickException` message raised by `create_network_rule` for an
invalid mode/type combination. -/
def invalid_mode_type_msg (mode : NetworkRuleMode) (rule_type : NetworkRuleType) : String :=
  "Invalid type \x27" ++ typeValue rule_type ++ "\x27 for mode \x27" ++ modeValue mode
    ++ "\x27. Valid types: " ++ pyListRepr (get_valid_types_for_mode mode)

/-! ## SQL text generators
(src/snow-utils-networks/scripts/network.py, lines 38-112, and
src/iceberg-external-volume/scripts/extvolume.py, lines 500-516) -/

/-- `get_network_rule_sql` (snow-utils-networks copy).  Note that the `force`
parameter is accepted but never used: the statement always begins with
`CREATE OR REPLACE`. -/
def get_network_rule_sql (name db schema : String) (values : List String)
    (mode : NetworkRuleMode) (rule_type : NetworkRuleType) (comment : String)
    (force : Bool) : String :=
  let value_list := String.intercalate ", " (values.map (fun v => "\x27" ++ v ++ "\x27"))
  let comment_text := if comment = "" then "Created by snow-utils" else comment
  "CREATE OR REPLACE NETWORK RULE " ++ db ++ "." ++ schema ++ "." ++ name
    ++ "\n    MODE = " ++ modeValue mode
    ++ "\n    TYPE = " ++ typeValue rule_type
    ++ "\n    VALUE_LIST = (" ++ value_list ++ ")"
    ++ "\n    COMMENT = \x27" ++ comment_text ++ "\x27;"

/-- `get_network_policy_sql` (snow-utils-networks copy).  The `force`
parameter is accepted but never used: the statement always begins with
`CREATE NETWORK POLICY IF NOT EXISTS`. -/
def get_network_policy_sql (policy_name : String) (rule_refs : List String)
    (comment : String) (force : Bool) : String :=
  let rule_list := String.intercalate ", " rule_refs
  let comment_text := if comment = "" then "Created by snow-utils" else comment
  "CREATE NETWORK POLICY IF NOT EXISTS " ++ policy_name
    ++ "\n    ALLOWED_NETWORK_RULE_LIST = (" ++ rule_list ++ ")"
    ++ "\n    COMMENT = \x27" ++ comment_text ++ "\x27;"

/-- Configuration dataclass `ExternalVolumeConfig` from extvolume.py. -/
structure ExternalVolumeConfig where
  bucket_name : String
  role_name : String
  policy_name : String
  volume_name : String
  storage_location_name : String
  external_id : String
  aws_region : String
  allow_writes : Bool
deriving DecidableEq, Repr

/-- `get_external_volume_sql`: the only generator of the three that honours
`force` (`CREATE OR REPLACE` vs `CREATE IF NOT EXISTS`). -/
def get_external_volume_sql (config : ExternalVolumeConfig) (role_arn : String)
    (force : Bool) : String :=
  let allow_writes := if config.allow_writes then "TRUE" else "FALSE"
  let create_stmt := if force then "CREATE OR REPLACE" else "CREATE IF NOT EXISTS"
  create_stmt ++ " EXTERNAL VOLUME " ++ config.volume_name
    ++ "\n    STORAGE_LOCATIONS = (\n        (\n            NAME = \x27"
    ++ config.storage_location_name
    ++ "\x27\n            STORAGE_PROVIDER = \x27S3\x27\n            STORAGE_BASE_URL = \x27s3://"
    ++ config.bucket_name
    ++ "/\x27\n            STORAGE_AWS_ROLE_ARN = \x27" ++ role_arn
    ++ "\x27\n            STORAGE_AWS_EXTERNAL_ID = \x27" ++ config.external_id
    ++ "\x27\n        )\n    )\n    ALLOW_WRITES = " ++ allow_writes ++ ";"

/-! ## Network rule reconciler with call traces
(src/snow-utils-networks/scripts/network.py, lines 115-390)

External effects are reified: `NetCall.stdin` is a `run_snow_sql_stdin`
subprocess invocation, `NetCall.echo` is terminal output via `click.echo`.
The external database is modelled as a list of (policy name, value of the
`ALLOWED_NETWORK_RULE_LIST` row of `DESC NETWORK POLICY`) pairs. -/

/-- One observable action of the network.py reconciler. -/
inductive NetCall
  | echo (msg : String)
  | stdin (sql : String)
deriving DecidableEq, Repr

/-- The call `run_snow_sql(query, role=admin_role)` appearing at
network.py lines 331, 336, 346 and 367.  `snow_utils_common.run_snow_sql`
is declared as `run_snow_sql(query, *, format="json", check=True)` and has no
`role` parameter, so the call raises
`TypeError: run_snow_sql() got an unexpected keyword argument 'role'`
before any subprocess is spawned.  The would-be row list of a successful call
is the second component of the state entry found by the query. -/
def run_snow_sql_role (dbState : List (String × String)) (query role : String) :
    Except String (List (String × String)) :=
  .error ("TypeError: run_snow_sql() got an unexpected keyword argument \x27role\x27")

/-- `get_policies_for_rule`: DESC the single expected policy and report it if
its `ALLOWED_NETWORK_RULE_LIST` value contains the rule name
(case-insensitively).  The whole body is wrapped in
`try: ... except Exception: pass`, and because `run_snow_sql_role` always
raises `TypeError`, the function always returns the empty list. -/
def get_policies_for_rule (dbState : List (String × String))
    (rule_fqn expected_policy_name admin_role : String) : List String :=
  match run_snow_sql_role dbState ("DESC NETWORK POLICY " ++ expected_policy_name) admin_role with
  | .error _ => []
  | .ok descRows =>
    match descRows.find? (fun row => row.1 == "ALLOWED_NETWORK_RULE_LIST") with
    | some row =>
      if occursIn (listUpper rule_fqn.toList) (listUpper row.2.toList) then
        [expected_policy_name]
      else []
    | none => []

/-- The SQL issued by `detach_rule_from_policy`. -/
def detach_rule_sql (policy_name admin_role : String) : String :=
  "USE ROLE " ++ admin_role ++ ";\nALTER NETWORK POLICY IF EXISTS " ++ policy_name
    ++ " SET ALLOWED_NETWORK_RULE_LIST = ();"

/-- The SQL issued by `reattach_rule_to_policy`. -/
def reattach_rule_sql (policy_name rule_fqn admin_role : String) : String :=
  "USE ROLE " ++ admin_role ++ ";\nALTER NETWORK POLICY IF EXISTS " ++ policy_name
    ++ " SET ALLOWED_NETWORK_RULE_LIST = (\x27" ++ rule_fqn ++ "\x27);"

/-- `create_network_rule` (snow-utils-networks copy): validate the mode/type
pair, then in dry-run mode only echo the generated SQL; otherwise detach the
rule from each policy reported by `get_policies_for_rule`, run the setup
script plus the CREATE statement over stdin, and re-attach the rule.
Returns the fully qualified rule name together with the trace of actions. -/
def create_network_rule (name db schema : String) (values : List String)
    (mode : NetworkRuleMode) (rule_type : NetworkRuleType) (comment : String)
    (dry_run force : Bool) (admin_role : String)
    (dbState : List (String × String)) : Except String (List NetCall × String) :=
  if !validate_mode_type mode rule_type then
    .error (invalid_mode_type_msg mode rule_type)
  else
    let rule_fqn := db ++ "." ++ schema ++ "." ++ name
    let sql := get_network_rule_sql name db schema values mode rule_type comment force
    if dry_run then .ok ([NetCall.echo sql], rule_fqn)
    else
      let expected_policy := pyReplace name "_NETWORK_RULE" "_NETWORK_POLICY"
      let attached := get_policies_for_rule dbState rule_fqn expected_policy admin_role
      let setup_sql := "USE ROLE " ++ admin_role ++ ";\nCREATE DATABASE IF NOT EXISTS " ++ db
        ++ ";\nCREATE SCHEMA IF NOT EXISTS " ++ db ++ "." ++ schema ++ ";\n"
      .ok (attached.map (fun p => NetCall.stdin (detach_rule_sql p admin_role))
            ++ [NetCall.stdin (setup_sql ++ sql)]
            ++ attached.map (fun p => NetCall.stdin (reattach_rule_sql p rule_fqn admin_role)),
          rule_fqn)

/-- `create_network_policy` (snow-utils-networks copy): echo the SQL in
dry-run mode, otherwise run it (prefixed by `USE ROLE`) over stdin. -/
def create_network_policy (policy_name : String) (rule_refs : List String)
    (comment : String) (dry_run force : Bool) (admin_role : String) : List NetCall :=
  let sql := get_network_policy_sql policy_name rule_refs comment force
  if dry_run then [NetCall.echo sql]
  else [NetCall.stdin ("USE ROLE " ++ admin_role ++ ";\n" ++ sql)]

/-! ## External-volume create workflow
(src/iceberg-external-volume/scripts/extvolume.py, lines 768-1077)

The non-dry-run body of `create` is a linear sequence of seven steps inside a
`try` block.  A `CreateEnv` records, for each AWS resource, whether it already
exists before the run, and for each step whether its external call raises.
Failures are identified by their 1-based step number.  The rollback handler
deletes resources guarded by the `created_*` flags, each deletion inside its
own `try/except` whose caught exception is only logged. -/

/-- The three AWS resources the workflow may roll back. -/
inductive AwsResource
  | bucket
  | policy
  | role
deriving DecidableEq, Repr

/-- An error surfaced during the create workflow: either the failure of one
of the seven steps, or the failure of a rollback deletion of one resource. -/
inductive RaisedErr
  | stepFailure (step : Nat)
  | rollbackFailure (r : AwsResource)
deriving DecidableEq, Repr

/-- Environment of one run of `create` (non-dry-run): pre-existence of the
AWS resources, which steps raise, whether `--skip-verify` was passed. -/
structure CreateEnv where
  bucketPre : Bool
  policyPre : Bool
  rolePre : Bool
  fail1 : Bool
  fail2 : Bool
  fail3 : Bool
  fail4 : Bool
  fail5 : Bool
  fail6 : Bool
  fail7 : Bool
  skipVerify : Bool
deriving DecidableEq, Repr

/-- One guarded deletion inside `rollback_aws_resources`: when the `created`
flag is set, the deletion of `r` is attempted; if it raises (`delFails`),
the exception is caught and logged as a warning. -/
def rollback_delete_attempt (created delFails : Bool) (r : AwsResource) :
    List AwsResource × List RaisedErr :=
  if created then ([r], if delFails then [RaisedErr.rollbackFailure r] else [])
  else ([], [])

/-- `rollback_aws_resources` (extvolume.py lines 985-1005): attempt the
deletions guarded by the `created_role`, `created_policy`, `created_bucket`
flags, in that order; return the attempted deletions and the logged (caught)
rollback exceptions.  No exception escapes this function. -/
def rollback_aws_resources (created_role created_policy created_bucket : Bool)
    (delRoleFails delPolicyFails delBucketFails : Bool) :
    List AwsResource × List RaisedErr :=
  let roleOut := rollback_delete_attempt created_role delRoleFails AwsResource.role
  let policyOut := rollback_delete_attempt created_policy delPolicyFails AwsResource.policy
  let bucketOut := rollback_delete_attempt created_bucket delBucketFails AwsResource.bucket
  (roleOut.1 ++ policyOut.1 ++ bucketOut.1, roleOut.2 ++ policyOut.2 ++ bucketOut.2)

/-- The `try` block of `create` (extvolume.py lines 1007-1077).  Step 1 sets
`created_bucket` to the return value of `create_s3_bucket` (false when the
bucket already existed); steps 2 and 3 set `created_policy` / `created_role`
to `True` unconditionally after `create_iam_policy` / `create_iam_role`
return, including their already-exists short-circuit paths.  On the first
failing step, `rollback_aws_resources` runs and the original step error is
re-raised.  The result is (attempted rollback deletions, logged rollback
exceptions, error raised to the caller). -/
def extvolume_create (e : CreateEnv) (delRoleFails delPolicyFails delBucketFails : Bool) :
    List AwsResource × List RaisedErr × Option RaisedErr :=
  if e.fail1 then
    let rb := rollback_aws_resources false false false delRoleFails delPolicyFails delBucketFails
    (rb.1, rb.2, some (RaisedErr.stepFailure 1))
  else
    let created_bucket := !e.bucketPre
    if e.fail2 then
      let rb := rollback_aws_resources false false created_bucket
        delRoleFails delPolicyFails delBucketFails
      (rb.1, rb.2, some (RaisedErr.stepFailure 2))
    else if e.fail3 then
      let rb := rollback_aws_resources false true created_bucket
        delRoleFails delPolicyFails delBucketFails
      (rb.1, rb.2, some (RaisedErr.stepFailure 3))
    else if e.fail4 then
      let rb := rollback_aws_resources true true created_bucket
        delRoleFails delPolicyFails delBucketFails
      (rb.1, rb.2, some (RaisedErr.stepFailure 4))
    else if e.fail5 then
      let rb := rollback_aws_resources true true created_bucket
        delRoleFails delPolicyFails delBucketFails
      (rb.1, rb.2, some (RaisedErr.stepFailure 5))
    else if e.fail6 then
      let rb := rollback_aws_resources true true created_bucket
        delRoleFails delPolicyFails delBucketFails
      (rb.1, rb.2, some (RaisedErr.stepFailure 6))
    else if !e.skipVerify && e.fail7 then
      let rb := rollback_aws_resources true true created_bucket
        delRoleFails delPolicyFails delBucketFails
      (rb.1, rb.2, some (RaisedErr.stepFailure 7))
    else ([], [], none)

/-- The first step of `create` that raises, if any (step 7 only runs when
verification is not skipped). -/
def firstFail (e : CreateEnv) : Option Nat :=
  if e.fail1 then some 1
  else if e.fail2 then some 2
  else if e.fail3 then some 3
  else if e.fail4 then some 4
  else if e.fail5 then some 5
  else if e.fail6 then some 6
  else if !e.skipVerify && e.fail7 then some 7
  else none

/-- Whether the rollback deletion of a given resource raises, as a function
of the three per-resource failure switches. -/
def rollbackDelFails (r : AwsResource) (delRoleFails delPolicyFails delBucketFails : Bool) :
    Bool :=
  match r with
  | .role => delRoleFails
  | .policy => delPolicyFails
  | .bucket => delBucketFails

/-- The rollback deletions the specification predicts for a failure at step
`k`: exactly the resources newly created (not pre-existing) in steps strictly
before `k`, in reverse creation order. -/
def specRollbackDeletions (e : CreateEnv) (k : Nat) : List AwsResource :=
  (if 3 < k && !e.rolePre then [AwsResource.role] else [])
    ++ (if 2 < k && !e.policyPre then [AwsResource.policy] else [])
    ++ (if 1 < k && !e.bucketPre then [AwsResource.bucket] else [])

/-- The rollback deletions the code actually performs for a failure at step
`k`: role and policy whenever their creation step completed (pre-existing or
not), the bucket only when it was newly created. -/
def codeRollbackDeletions (e : CreateEnv) (k : Nat) : List AwsResource :=
  (if 3 < k then [AwsResource.role] else [])
    ++ (if 2 < k then [AwsResource.policy] else [])
    ++ (if 1 < k && !e.bucketPre then [AwsResource.bucket] else [])

/-! ## External-volume dry-run branch
(src/iceberg-external-volume/scripts/extvolume.py, lines 869-967) -/

/-- An external call of the `create` command outside the snow CLI. -/
inductive ExtCall
  | stsGetCallerIdentity
  | awsMutation (description : String)
  | snowSqlStdin (sql : String)
  | snowSqlQuery (sql : String)
deriving DecidableEq, Repr

/-- The dry-run path of `create`.  With `--output json` the command prints the
result document and returns before doing anything else.  In text mode it
*does* call `boto3.client("sts")` / `get_caller_identity()` to resolve the
account id (falling back to a placeholder when the call raises), then prints
the generated SQL statements.  Returns (SQL/plan statements echoed, external
calls invoked). -/
def extvolume_create_dry_run (config : ExternalVolumeConfig) (force : Bool)
    (jsonOutput stsOk : Bool) (accountId : String) : List String × List ExtCall :=
  if jsonOutput then ([], [])
  else
    let acct := if stsOk then accountId else "<AWS_ACCOUNT_ID>"
    let role_arn := "arn:aws:iam::" ++ acct ++ ":role/" ++ config.role_name
    ([get_external_volume_sql config role_arn force,
      "DESC EXTERNAL VOLUME " ++ config.volume_name ++ ";",
      "SELECT SYSTEM$VERIFY_EXTERNAL_VOLUME(\x27" ++ config.volume_name ++ "\x27);"],
     [ExtCall.stsGetCallerIdentity])

/-! ## Backoff waiter
(src/iceberg-external-volume/scripts/extvolume.py, lines 52-82)

`check_fn` is modelled as the sequence of its return values indexed by the
1-based attempt number; float delays are idealised as rationals.  The result
is instrumented with the list of slept delays and the list of attempt indices
at which `check_fn` was invoked. -/

/-- Loop body of `wait_with_backoff`: `remaining` counts the attempts still
available including the current one (`attempt`).  On a false check with
attempts remaining the current delay is slept and then updated to
`min(delay * factor, max_delay)`. -/
def waitAux (check : Nat → Bool) (maxDelay factor : ℚ) :
    Nat → Nat → ℚ → Bool × List ℚ × List Nat
  | 0, _, _ => (false, [], [])
  | 1, attempt, _ =>
    if check attempt then (true, [], [attempt]) else (false, [], [attempt])
  | remaining + 2, attempt, delay =>
    if check attempt then (true, [], [attempt])
    else
      let out := waitAux check maxDelay factor (remaining + 1) (attempt + 1)
        (min (delay * factor) maxDelay)
      (out.1, delay :: out.2.1, attempt :: out.2.2)

/-- `wait_with_backoff`: attempts run from 1 to `max_attempts`; returns
(result, delays slept between consecutive attempts, attempts at which
`check_fn` was called). -/
def wait_with_backoff (check : Nat → Bool) (max_attempts : Nat)
    (initial_delay max_delay backoff_factor : ℚ) : Bool × List ℚ × List Nat :=
  waitAux check max_delay backoff_factor max_attempts 1 initial_delay

/-- The delay sequence of the specification: `delaySeq 0 = initial_delay` is
slept after the first attempt, and each subsequent delay is
`min(previous * backoff_factor, max_delay)`. -/
def delaySeq (initial_delay max_delay backoff_factor : ℚ) : Nat → ℚ
  | 0 => initial_delay
  | n + 1 => min (delaySeq initial_delay max_delay backoff_factor n * backoff_factor) max_delay

/-- The first attempt in `1 .. max_attempts` at which `check` returns true. -/
def firstTrue (check : Nat → Bool) (max_attempts : Nat) : Option Nat :=
  ((List.range max_attempts).map (fun j => j + 1)).find? check

/-! ## IPv4 CIDR collection
(src/snow-utils-pat/scripts/network_presets.py, lines 112-144)

The three HTTPS preset providers are modelled by their fetched values
(`localIp`, `ghIps`, `googleIps`). -/

/-- `collect_ipv4_cidrs`: concatenate the enabled presets and the extra CIDRs
(an empty or missing extra list contributes nothing, mirroring Python
truthiness), then de-duplicate keeping first occurrences. -/
def collect_ipv4_cidrs (with_local with_gh with_google : Bool)
    (extra_cidrs : Option (List String))
    (localIp : String) (ghIps googleIps : List String) : List String :=
  let cidrs :=
    (if with_local then [localIp] else [])
      ++ (if with_gh then ghIps else [])
      ++ (if with_google then googleIps else [])
      ++ (match extra_cidrs with
          | some l => if l.isEmpty then [] else l
          | none => [])
  dedupFirst cidrs

/-! ## Specification-side definitions used to state claims -/

/-- The compatibility table exactly as the specification words it:
INGRESS, INTERNAL_STAGE and POSTGRES_INGRESS allow IPV4 and AWSVPCEID;
EGRESS and POSTGRES_EGRESS allow IPV4 and HOST_PORT; PRIVATE_HOST_PORT is
allowed with no mode. -/
def claimAllowedPair (mode : NetworkRuleMode) (rule_type : NetworkRuleType) : Bool :=
  match mode with
  | .INGRESS | .INTERNAL_STAGE | .POSTGRES_INGRESS =>
    rule_type == .IPV4 || rule_type == .AWSVPCEID
  | .EGRESS | .POSTGRES_EGRESS =>
    rule_type == .IPV4 || rule_type == .HOST_PORT

/-- A dotted-quad character string built from four octet character groups. -/
def dottedQuad (p0 p1 p2 p3 : List Char) : List Char :=
  p0 ++ '.' :: (p1 ++ '.' :: (p2 ++ '.' :: p3))

/-- The masked rendering `p0.p1.***.***` of a dotted quad. -/
def maskedQuad (p0 p1 : List Char) : List Char :=
  p0 ++ '.' :: (p1 ++ ('.' :: '*' :: '*' :: '*' :: '.' :: '*' :: '*' :: '*' :: []))

/-! ## General lemmas about the string helpers -/

/-- Appending strings appends their character lists. -/
theorem strToList_append (a b : String) : (a ++ b).toList = a.toList ++ b.toList := by
  cases a
  cases b
  rfl

/-- A list is a leading segment of itself followed by anything. -/
theorem seqStarts_self_append (p rest : List Char) : seqStarts p (p ++ rest) = true := by
  induction p with
  | nil => rfl
  | cons a as ih => simp [seqStarts, ih]

/-- `seqStarts` transport along an equation exposing the leading segment. -/
theorem seqStarts_of_eq_append (p t rest : List Char) (h : t = p ++ rest) :
    seqStarts p t = true := by
  subst h
  exact seqStarts_self_append p rest

/-! ## Lemmas about first-occurrence de-duplication -/

/-- `dedupSeen` yields a sublist of its input. -/
theorem dedupSeen_sublist (l : List String) : ∀ seen, List.Sublist (dedupSeen seen l) l := by
  induction l with
  | nil => intro seen; simp [dedupSeen]
  | cons x rest ih =>
    intro seen
    by_cases hx : x ∈ seen
    · simp only [dedupSeen, if_pos hx]
      exact (ih seen).cons x
    · simp only [dedupSeen, if_neg hx]
      exact (ih (x :: seen)).cons₂ x

/-- Membership in `dedupSeen`: the element occurs in the input and was not
already seen. -/
theorem dedupSeen_mem (l : List String) :
    ∀ seen x, x ∈ dedupSeen seen l ↔ (x ∈ l ∧ x ∉ seen) := by
  induction l with
  | nil => intro seen x; simp [dedupSeen]
  | cons y rest ih =>
    intro seen x
    by_cases hy : y ∈ seen
    · simp only [dedupSeen, if_pos hy, ih, List.mem_cons]
      constructor
      · rintro ⟨hxl, hxs⟩
        exact ⟨Or.inr hxl, hxs⟩
      · rintro ⟨he | hxl, hxs⟩
        · subst he
          exact absurd hy hxs
        · exact ⟨hxl, hxs⟩
    · simp only [dedupSeen, if_neg hy, List.mem_cons, ih]
      constructor
      · rintro (he | ⟨hxl, hxs⟩)
        · subst he
          exact ⟨Or.inl rfl, hy⟩
        · exact ⟨Or.inr hxl, fun hx => hxs (Or.inr hx)⟩
      · rintro ⟨he | hxl, hxs⟩
        · subst he
          exact Or.inl rfl
        · by_cases hxy : x = y
          · exact Or.inl hxy
          · refine Or.inr ⟨hxl, fun hx => ?_⟩
            rcases hx with he2 | hx2
            · exact hxy he2
            · exact hxs hx2

/-- `dedupSeen` produces a list without duplicates. -/
theorem dedupSeen_nodup (l : List String) : ∀ seen, (dedupSeen seen l).Nodup := by
  induction l with
  | nil => intro seen; simp [dedupSeen]
  | cons x rest ih =>
    intro seen
    by_cases hx : x ∈ seen
    · simp only [dedupSeen, if_pos hx]
      exact ih seen
    · simp only [dedupSeen, if_neg hx]
      refine List.nodup_cons.mpr ⟨fun hmem => ?_, ih (x :: seen)⟩
      exact ((dedupSeen_mem rest (x :: seen) x).mp hmem).2 (List.mem_cons_self x seen)

/-- The compatibility check of the code agrees pointwise with the table as
worded by the specification. -/
theorem validate_mode_type_eq_claim :
    ∀ m t, validate_mode_type m t = claimAllowedPair m t := by
  intro m t
  cases m <;> cases t <;> rfl

/-! ## Claim C4: mode/type validation table -/

/-- C4: `create_network_rule` raises the descriptive invalid-combination
error exactly for the (mode, type) pairs outside the fixed compatibility
table, which allows INGRESS, INTERNAL_STAGE and POSTGRES_INGRESS with
IPV4/AWSVPCEID, EGRESS and POSTGRES_EGRESS with IPV4/HOST_PORT, and
PRIVATE_HOST_PORT with no mode. -/
theorem create_network_rule_mode_type_validation :
    ∀ (mode : NetworkRuleMode) (rule_type : NetworkRuleType)
      (name db schema : String) (values : List String) (comment : String)
      (dry_run force : Bool) (admin_role : String) (dbState : List (String × String)),
      (create_network_rule name db schema values mode rule_type comment dry_run force
          admin_role dbState
        = Except.error (invalid_mode_type_msg mode rule_type))
      ↔ claimAllowedPair mode rule_type = false := by
  intro mode rule_type name db schema values comment dry_run force admin_role dbState
  have hv := validate_mode_type_eq_claim mode rule_type
  cases hcl : claimAllowedPair mode rule_type
  · rw [hcl] at hv
    simp [create_network_rule, hv]
  · rw [hcl] at hv
    simp only [create_network_rule, hv, Bool.not_true, Bool.false_eq_true, if_false]
    cases dry_run <;> simp

/-! ## Claim C5: force flag and CREATE statement semantics -/

/-- C5 counterexample: the network-rule CREATE statement generated with
`force = False` does not use if-not-exists semantics; it begins with
`CREATE OR REPLACE` and contains no `IF NOT EXISTS`. -/
theorem rule_sql_force_false_is_or_replace :
    seqStarts "CREATE OR REPLACE".toList
      (get_network_rule_sql "MY_RULE" "DB" "NETWORKS" ["10.0.0.0/8"]
        NetworkRuleMode.INGRESS NetworkRuleType.IPV4 "" false).toList = true
    ∧ occursIn "IF NOT EXISTS".toList
      (get_network_rule_sql "MY_RULE" "DB" "NETWORKS" ["10.0.0.0/8"]
        NetworkRuleMode.INGRESS NetworkRuleType.IPV4 "" false).toList = false := by
  constructor
  · decide
  · decide

/-- Splitting the pattern of `seqStarts` across an append. -/
theorem seqStarts_append_seq (p q rest : List Char) :
    seqStarts (p ++ q) (p ++ (q ++ rest)) = true := by
  rw [← List.append_assoc]
  exact seqStarts_self_append (p ++ q) rest

set_option maxRecDepth 16384 in
/-- C5 (amended): only the external-volume generator follows `force`
(`CREATE OR REPLACE` when true, `CREATE IF NOT EXISTS` when false); the
network-rule generator always emits `CREATE OR REPLACE NETWORK RULE` and the
network-policy generator always emits `CREATE NETWORK POLICY IF NOT EXISTS`,
both ignoring `force`. -/
theorem create_sql_force_semantics :
    (∀ (name db schema : String) (values : List String) (mode : NetworkRuleMode)
        (rule_type : NetworkRuleType) (comment : String) (force : Bool),
      seqStarts "CREATE OR REPLACE NETWORK RULE ".toList
        (get_network_rule_sql name db schema values mode rule_type comment force).toList = true)
    ∧ (∀ (policy_name : String) (rule_refs : List String) (comment : String) (force : Bool),
      seqStarts "CREATE NETWORK POLICY IF NOT EXISTS ".toList
        (get_network_policy_sql policy_name rule_refs comment force).toList = true)
    ∧ (∀ (config : ExternalVolumeConfig) (role_arn : String),
      seqStarts "CREATE OR REPLACE EXTERNAL VOLUME ".toList
        (get_external_volume_sql config role_arn true).toList = true
      ∧ seqStarts "CREATE IF NOT EXISTS EXTERNAL VOLUME ".toList
        (get_external_volume_sql config role_arn false).toList = true) := by
  refine ⟨?_, ?_, ?_⟩
  · intro name db schema values mode rule_type comment force
    simp only [get_network_rule_sql, strToList_append, List.append_assoc]
    exact seqStarts_self_append _ _
  · intro policy_name rule_refs comment force
    simp only [get_network_policy_sql, strToList_append, List.append_assoc]
    exact seqStarts_self_append _ _
  · intro config role_arn
    constructor
    · rw [show ("CREATE OR REPLACE EXTERNAL VOLUME ".toList : List Char)
        = "CREATE OR REPLACE".toList ++ " EXTERNAL VOLUME ".toList from by decide]
      simp only [get_external_volume_sql, if_true, strToList_append, List.append_assoc]
      exact seqStarts_append_seq _ _ _
    · rw [show ("CREATE IF NOT EXISTS EXTERNAL VOLUME ".toList : List Char)
        = "CREATE IF NOT EXISTS".toList ++ " EXTERNAL VOLUME ".toList from by decide]
      simp only [get_external_volume_sql, if_false, strToList_append, List.append_assoc]
      exact seqStarts_append_seq _ _ _

/-! ## Claim C6: documented masking equations -/

/-- C6: with masking enabled the documented equations hold (the spec's
`account_id` kind is the code's `"aws_account_id"` type string):
`mask("123456789012", account_id) = "1234****9012"`,
`mask("192.168.1.100/32", ip) = "192.168.***.***/32"`,
`mask("abc123xyz", external_id) = "abc***xyz"`, and for every string the
`external_id` kind gives all asterisks when the length is at most 6 and
otherwise 3 leading characters, length-6 asterisks and 3 trailing
characters. -/
theorem mask_documented_equations :
    mask_sensitive_string true "123456789012" "aws_account_id" = "1234****9012"
    ∧ mask_sensitive_string true "192.168.1.100/32" "ip" = "192.168.***.***/32"
    ∧ mask_sensitive_string true "abc123xyz" "external_id" = "abc***xyz"
    ∧ ∀ v : String, mask_sensitive_string true v "external_id"
        = (if v.toList.length ≤ 6 then String.mk (List.replicate v.toList.length '*')
           else String.mk (v.toList.take 3 ++ List.replicate (v.toList.length - 6) '*'
             ++ v.toList.drop (v.toList.length - 3))) := by
  refine ⟨by decide, by decide, by decide, fun v => rfl⟩

/-! ## Claim C8: detach / replace / re-attach around a referenced rule -/

/-- C8: evaluation of `create_network_rule` (non-dry-run) at the failing
input: the database state holds policy FOO_NETWORK_POLICY whose
ALLOWED_NETWORK_RULE_LIST contains the rule being replaced, yet the issued
operations are a single stdin script (setup plus CREATE OR REPLACE) with no
detach and no re-attach, because `get_policies_for_rule` passes the
unsupported `role` keyword to `run_snow_sql`, the TypeError is swallowed and
the attached-policy list is always empty. -/
theorem create_rule_attached_policy_no_detach :
    create_network_rule "FOO_NETWORK_RULE" "DB" "NETWORKS" ["10.1.2.3/32"]
        NetworkRuleMode.INGRESS NetworkRuleType.IPV4 "" false false "accountadmin"
        [("FOO_NETWORK_POLICY", "[DB.NETWORKS.FOO_NETWORK_RULE]")]
      = Except.ok ([NetCall.stdin
          ("USE ROLE accountadmin;\nCREATE DATABASE IF NOT EXISTS DB;\nCREATE SCHEMA IF NOT EXISTS DB.NETWORKS;\n"
            ++ get_network_rule_sql "FOO_NETWORK_RULE" "DB" "NETWORKS" ["10.1.2.3/32"]
                NetworkRuleMode.INGRESS NetworkRuleType.IPV4 "" false)],
          "DB.NETWORKS.FOO_NETWORK_RULE") := by
  rfl

/-! ## Claim C9: dry-run behaviour -/

/-- C9 counterexample: the external-volume create command in text-mode
dry-run does invoke a cloud-API request (STS GetCallerIdentity), refuting
"invokes no external call during the dry run". -/
theorem dry_run_sts_call :
    (extvolume_create_dry_run
        ⟨"b", "r", "p", "V", "loc", "EXT", "us-west-2", true⟩ false false true "123456789012").2
      = [ExtCall.stsGetCallerIdentity]
    ∧ (extvolume_create_dry_run
        ⟨"b", "r", "p", "V", "loc", "EXT", "us-west-2", true⟩ false false true "123456789012").2
      ≠ [] := by
  decide

/-- C9 (amended): dry-run creates nothing and spawns no database-CLI
subprocess: the network-rule and network-policy dry runs only echo the
generated SQL; the external-volume text-mode dry run prints the SQL/plan
statements and its only external call is the read-only STS
GetCallerIdentity lookup (json-mode dry run prints the result document and
makes no call at all). -/
theorem dry_run_prints_sql_no_snow_calls :
    (∀ (name db schema : String) (values : List String) (mode : NetworkRuleMode)
        (rule_type : NetworkRuleType) (comment : String) (force : Bool)
        (admin_role : String) (dbState : List (String × String)),
      validate_mode_type mode rule_type = true →
      create_network_rule name db schema values mode rule_type comment true force
          admin_role dbState
        = Except.ok ([NetCall.echo
            (get_network_rule_sql name db schema values mode rule_type comment force)],
            db ++ "." ++ schema ++ "." ++ name))
    ∧ (∀ (policy_name : String) (rule_refs : List String) (comment : String)
        (force : Bool) (admin_role : String),
      create_network_policy policy_name rule_refs comment true force admin_role
        = [NetCall.echo (get_network_policy_sql policy_name rule_refs comment force)])
    ∧ (∀ (config : ExternalVolumeConfig) (force stsOk : Bool) (accountId : String),
      extvolume_create_dry_run config force false stsOk accountId
        = ([get_external_volume_sql config
              ("arn:aws:iam::" ++ (if stsOk then accountId else "<AWS_ACCOUNT_ID>")
                ++ ":role/" ++ config.role_name) force,
            "DESC EXTERNAL VOLUME " ++ config.volume_name ++ ";",
            "SELECT SYSTEM$VERIFY_EXTERNAL_VOLUME(\x27" ++ config.volume_name ++ "\x27);"],
           [ExtCall.stsGetCallerIdentity])
      ∧ extvolume_create_dry_run config force true stsOk accountId = ([], [])) := by
  refine ⟨?_, ?_, ?_⟩
  · intro name db schema values mode rule_type comment force admin_role dbState hv
    simp [create_network_rule, hv]
  · intro policy_name rule_refs comment force admin_role
    rfl
  · intro config force stsOk accountId
    exact ⟨rfl, rfl⟩

/-- Witness for the dry-run theorem at a concrete valid mode/type pair. -/
theorem dry_run_prints_sql_no_snow_calls_witness :
    validate_mode_type NetworkRuleMode.INGRESS NetworkRuleType.IPV4 = true
    ∧ create_network_rule "R" "D" "S" ["1.2.3.4/32"] NetworkRuleMode.INGRESS
        NetworkRuleType.IPV4 "" true false "accountadmin" []
      = Except.ok ([NetCall.echo
          (get_network_rule_sql "R" "D" "S" ["1.2.3.4/32"] NetworkRuleMode.INGRESS
            NetworkRuleType.IPV4 "" false)], "D.S.R") := by
  refine ⟨by decide, ?_⟩
  rw [dry_run_prints_sql_no_snow_calls.1 "R" "D" "S" ["1.2.3.4/32"]
    NetworkRuleMode.INGRESS NetworkRuleType.IPV4 "" false "accountadmin" [] (by decide)]
  rfl

/-! ## Claim C10: CIDR collection -/

/-- C10: `collect_ipv4_cidrs` returns the concatenation of the local IP
(when enabled), the GitHub ranges, the Google ranges and the extra CIDRs,
de-duplicated keeping first occurrences: the result equals `dedupFirst` of
that concatenation, has no duplicates, is a sublist of the concatenation
(so first-occurrence order is preserved), and has exactly the
concatenation's elements. -/
theorem collect_ipv4_cidrs_dedup :
    ∀ (with_local with_gh with_google : Bool) (extra_cidrs : Option (List String))
      (localIp : String) (ghIps googleIps : List String),
      collect_ipv4_cidrs with_local with_gh with_google extra_cidrs localIp ghIps googleIps
          = dedupFirst ((if with_local then [localIp] else [])
              ++ (if with_gh then ghIps else [])
              ++ (if with_google then googleIps else [])
              ++ (match extra_cidrs with
                  | some l => if l.isEmpty then [] else l
                  | none => []))
      ∧ (collect_ipv4_cidrs with_local with_gh with_google extra_cidrs localIp ghIps
          googleIps).Nodup
      ∧ List.Sublist
          (collect_ipv4_cidrs with_local with_gh with_google extra_cidrs localIp ghIps googleIps)
          ((if with_local then [localIp] else [])
            ++ (if with_gh then ghIps else [])
            ++ (if with_google then googleIps else [])
            ++ (match extra_cidrs with
                | some l => if l.isEmpty then [] else l
                | none => []))
      ∧ ∀ x : String,
          x ∈ collect_ipv4_cidrs with_local with_gh with_google extra_cidrs localIp ghIps
              googleIps
          ↔ x ∈ ((if with_local then [localIp] else [])
              ++ (if with_gh then ghIps else [])
              ++ (if with_google then googleIps else [])
              ++ (match extra_cidrs with
                  | some l => if l.isEmpty then [] else l
                  | none => [])) := by
  intro with_local with_gh with_google extra_cidrs localIp ghIps googleIps
  refine ⟨rfl, dedupSeen_nodup _ [], dedupSeen_sublist _ [], fun x => ?_⟩
  rw [show collect_ipv4_cidrs with_local with_gh with_google extra_cidrs localIp ghIps googleIps
      = dedupSeen [] ((if with_local then [localIp] else [])
          ++ (if with_gh then ghIps else [])
          ++ (if with_google then googleIps else [])
          ++ (match extra_cidrs with
              | some l => if l.isEmpty then [] else l
              | none => [])) from rfl]
  rw [dedupSeen_mem]
  simp

/-! ## Claims C1 and C2: external-volume rollback -/

/-- C1 counterexample: with the IAM policy already existing before the run
and step 3 (role creation) failing, the code rolls back (deletes) the
pre-existing policy as well as the newly created bucket, while the claim
predicts only the bucket. -/
theorem rollback_deletes_preexisting_policy :
    firstFail ⟨false, true, false, false, false, true, false, false, false, false, false⟩
      = some 3
    ∧ (extvolume_create
        ⟨false, true, false, false, false, true, false, false, false, false, false⟩
        false false false).1
      = [AwsResource.policy, AwsResource.bucket]
    ∧ specRollbackDeletions
        ⟨false, true, false, false, false, true, false, false, false, false, false⟩ 3
      = [AwsResource.bucket]
    ∧ (extvolume_create
        ⟨false, true, false, false, false, true, false, false, false, false, false⟩
        false false false).1
      ≠ specRollbackDeletions
        ⟨false, true, false, false, false, true, false, false, false, false, false⟩ 3 := by
  decide

/-- C1 (amended): on the first failing step the rollback attempts, in the
order role, policy, bucket, exactly `codeRollbackDeletions`: the role and
the policy whenever their creation steps completed before the failure (even
when creation short-circuited because the resource already existed), and the
bucket only when it was newly created in the current run; with no failing
step nothing is deleted. -/
theorem rollback_deletes_completed_creations :
    ∀ (bp pp rp f1 f2 f3 f4 f5 f6 f7 sv dR dP dB : Bool),
      (extvolume_create ⟨bp, pp, rp, f1, f2, f3, f4, f5, f6, f7, sv⟩ dR dP dB).1
        = (match firstFail ⟨bp, pp, rp, f1, f2, f3, f4, f5, f6, f7, sv⟩ with
           | none => []
           | some k => codeRollbackDeletions ⟨bp, pp, rp, f1, f2, f3, f4, f5, f6, f7, sv⟩ k) := by
  decide

/-- C2: the error raised to the caller is always the original step failure
(never a rollback error); the attempted rollback deletions do not depend on
whether individual deletions fail, and every failing deletion among them is
caught and logged. -/
theorem original_error_reraised_rollback_logged :
    ∀ (bp pp rp f1 f2 f3 f4 f5 f6 f7 sv dR dP dB : Bool),
      (extvolume_create ⟨bp, pp, rp, f1, f2, f3, f4, f5, f6, f7, sv⟩ dR dP dB).2.2
        = (firstFail ⟨bp, pp, rp, f1, f2, f3, f4, f5, f6, f7, sv⟩).map RaisedErr.stepFailure
      ∧ (extvolume_create ⟨bp, pp, rp, f1, f2, f3, f4, f5, f6, f7, sv⟩ dR dP dB).1
        = (extvolume_create ⟨bp, pp, rp, f1, f2, f3, f4, f5, f6, f7, sv⟩ false false false).1
      ∧ (extvolume_create ⟨bp, pp, rp, f1, f2, f3, f4, f5, f6, f7, sv⟩ dR dP dB).2.1
        = ((extvolume_create ⟨bp, pp, rp, f1, f2, f3, f4, f5, f6, f7, sv⟩ dR dP dB).1.filter
            (fun r => rollbackDelFails r dR dP dB)).map RaisedErr.rollbackFailure := by
  decide

/-! ## Claim C3: the backoff waiter -/

/-- Shifting the start of the delay sequence by one application of the
update `d := min(d * factor, max_delay)`. -/
theorem delaySeq_shift (i m f : ℚ) :
    ∀ n, delaySeq i m f (n + 1) = delaySeq (min (i * f) m) m f n := by
  intro n
  induction n with
  | zero => rfl
  | succ k ih =>
    calc delaySeq i m f (k + 2) = min (delaySeq i m f (k + 1) * f) m := rfl
      _ = min (delaySeq (min (i * f) m) m f k * f) m := by rw [ih]
      _ = delaySeq (min (i * f) m) m f (k + 1) := rfl

/-- Unfolding the first element of a mapped delay sequence. -/
theorem range_map_delaySeq (i m f : ℚ) (k : Nat) :
    (List.range (k + 1)).map (delaySeq i m f)
      = i :: (List.range k).map (delaySeq (min (i * f) m) m f) := by
  rw [List.range_succ_eq_map, List.map_cons, List.map_map]
  congr 1
  refine List.map_congr_left fun j _ => ?_
  show delaySeq i m f (j + 1) = delaySeq (min (i * f) m) m f j
  exact delaySeq_shift i m f j

/-- Unfolding the first element of a mapped index range. -/
theorem range_map_addOne (a k : Nat) :
    (List.range (k + 1)).map (fun j => j + a)
      = a :: (List.range k).map (fun j => j + (a + 1)) := by
  rw [List.range_succ_eq_map, List.map_cons, List.map_map]
  congr 1
  · show 0 + a = a
    omega
  · refine List.map_congr_left fun j _ => ?_
    show j + 1 + a = j + (a + 1)
    omega

/-- Characterisation of the waiter loop: starting at attempt `a` with `r`
attempts remaining and current delay `d`, the loop returns true at the first
attempt whose check succeeds (sleeping the delay sequence seeded by `d`
between consecutive attempts, and calling the check at every attempt up to
that one), or false with `r` checks and `r - 1` sleeps when no check in the
window succeeds. -/
theorem waitAux_eq (check : Nat → Bool) (m f : ℚ) :
    ∀ (r a : Nat) (d : ℚ),
      waitAux check m f r a d
        = match ((List.range r).map (fun j => j + a)).find? check with
          | some n => (true, (List.range (n - a)).map (delaySeq d m f),
              (List.range (n - a + 1)).map (fun j => j + a))
          | none => (false, (List.range (r - 1)).map (delaySeq d m f),
              (List.range r).map (fun j => j + a)) := by
  intro r
  induction r with
  | zero => intro a d; rfl
  | succ k ih =>
    intro a d
    rw [range_map_addOne a k]
    cases hc : check a with
    | true =>
      rw [List.find?_cons_of_pos _ hc]
      cases k with
      | zero => simp [waitAux, hc, Nat.sub_self, range_map_addOne]
      | succ k2 => simp [waitAux, hc, Nat.sub_self, range_map_addOne]
    | false =>
      rw [List.find?_cons_of_neg _ (by simp [hc])]
      cases k with
      | zero =>
        simp [waitAux, hc]
      | succ k2 =>
        simp only [waitAux, hc, Bool.false_eq_true, if_false]
        rw [ih (a + 1) (min (d * f) m)]
        cases hfind : ((List.range (k2 + 1)).map (fun j => j + (a + 1))).find? check with
        | some n =>
          have hn : a + 1 ≤ n := by
            have hmem := List.mem_of_find?_eq_some hfind
            simp only [List.mem_map, List.mem_range] at hmem
            omega
          dsimp only
          rw [show n - a = (n - (a + 1)) + 1 from by omega]
          conv_rhs => rw [range_map_delaySeq, range_map_addOne]
        | none =>
          dsimp only
          simp only [Nat.add_sub_cancel]
          conv_rhs => rw [range_map_delaySeq]

/-- C3: `wait_with_backoff` returns true exactly when some attempt in
`1 .. max_attempts` has a true check, in which case the check is called at
attempts `1 .. n` for the first such `n` (never afterwards); with a check
that never succeeds it is called at all `max_attempts` attempts and the
result is false.  The slept delays are the sequence
`delaySeq 0 = initial_delay`, `delaySeq (n+1) = min(delaySeq n * factor,
max_delay)`, and one fewer sleep than checks occurs (no sleep after the final
attempt). -/
theorem wait_with_backoff_spec (check : Nat → Bool) (max_attempts : Nat)
    (initial_delay max_delay backoff_factor : ℚ) (h : 1 ≤ max_attempts) :
    wait_with_backoff check max_attempts initial_delay max_delay backoff_factor
      = match firstTrue check max_attempts with
        | some n => (true,
            (List.range (n - 1)).map (delaySeq initial_delay max_delay backoff_factor),
            (List.range n).map (fun j => j + 1))
        | none => (false,
            (List.range (max_attempts - 1)).map
              (delaySeq initial_delay max_delay backoff_factor),
            (List.range max_attempts).map (fun j => j + 1)) := by
  cases hf : ((List.range max_attempts).map (fun j => j + 1)).find? check with
  | some n =>
    have hn : 1 ≤ n := by
      have hmem := List.mem_of_find?_eq_some hf
      simp only [List.mem_map, List.mem_range] at hmem
      omega
    rw [wait_with_backoff, waitAux_eq, firstTrue]
    simp only [hf]
    rw [Nat.sub_add_cancel hn]
  | none =>
    rw [wait_with_backoff, waitAux_eq, firstTrue]
    simp only [hf]

/-- Witness for the backoff theorem: the check succeeds at attempt 2 of a
3-attempt budget with initial delay 2, so exactly one sleep of the initial
delay occurs and the check is called at attempts 1 and 2 only. -/
theorem wait_with_backoff_spec_witness :
    1 ≤ 3
    ∧ wait_with_backoff (fun n => n == 2) 3 2 30 2 = (true, [(2 : ℚ)], [1, 2]) := by
  refine ⟨by decide, ?_⟩
  rw [wait_with_backoff_spec (fun n => n == 2) 3 2 30 2 (by decide)]
  rfl

/-! ## Claim C7: lemmas about the IP-masking string operations -/

/-- `remove32` passes over a head character that is not `/`. -/
theorem remove32_cons_ne_slash (c : Char) (l : List Char) (hc : c ≠ '/') :
    remove32 (c :: l) = c :: remove32 l := by
  rw [remove32.eq_def]
  split
  · rename_i heq
    injection heq with hch _
    exact absurd hch hc
  · rename_i c2 rest2 heq
    injection heq with hch htl
    rw [hch, htl]
  · rename_i heq
    simp at heq

/-- `remove32` passes over a `/` not followed by `32`. -/
theorem remove32_slash_cons (q : List Char) (hq : ∀ rest, q ≠ '3' :: '2' :: rest) :
    remove32 ('/' :: q) = '/' :: remove32 q := by
  rw [remove32.eq_def]
  split
  · rename_i heq
    injection heq with _ htl
    exact absurd htl (hq _)
  · rename_i c2 rest2 heq
    injection heq with hch htl
    rw [hch, htl]
  · rename_i heq
    simp at heq

/-- `remove32` distributes over an append whose left part has no slash. -/
theorem remove32_append (l t : List Char) (h : '/' ∉ l) :
    remove32 (l ++ t) = l ++ remove32 t := by
  induction l with
  | nil => rfl
  | cons c rest ih =>
    have hc : c ≠ '/' := by
      intro hce
      subst hce
      exact h (List.mem_cons_self _ _)
    have h2 : '/' ∉ rest := fun hm => h (List.mem_cons_of_mem _ hm)
    rw [List.cons_append, remove32_cons_ne_slash c _ hc, ih h2, List.cons_append]

/-- A slash-free string is unchanged by `remove32`. -/
theorem remove32_no_slash (l : List Char) (h : '/' ∉ l) : remove32 l = l := by
  have h2 := remove32_append l [] h
  rw [List.append_nil] at h2
  rw [h2, show remove32 ([] : List Char) = [] from rfl, List.append_nil]

/-- A string that does not start with `32` fails the `seqStarts` test. -/
theorem seqStarts32_false (q : List Char) (hq : ∀ rest, q ≠ '3' :: '2' :: rest) :
    seqStarts ('3' :: '2' :: []) q = false := by
  cases q with
  | nil => rfl
  | cons d q2 =>
    cases q2 with
    | nil =>
      simp [seqStarts]
    | cons e q3 =>
      by_cases hd : d = '3'
      · subst hd
        by_cases he : e = '2'
        · subst he
          exact absurd rfl (hq q3)
        · have h2 : ('2' == e) = false := by
            simp [he]
            intro hcontra
            exact he hcontra.symm
          simp [seqStarts, h2]
      · have h3 : ('3' == d) = false := by
          simp
          intro hcontra
          exact hd hcontra.symm
        simp [seqStarts, h3]

/-- A pattern occurring as a suffix after any left context occurs in the
whole string. -/
theorem occursIn_append_of_seqStarts (pat t : List Char) (h : seqStarts pat t = true) :
    ∀ l, occursIn pat (l ++ t) = true := by
  intro l
  induction l with
  | nil =>
    show occursIn pat t = true
    cases t with
    | nil =>
      cases pat with
      | nil => rfl
      | cons p ps => simp [seqStarts] at h
    | cons c rest => simp [occursIn, h]
  | cons c l2 ih => simp [occursIn, ih]

/-- `/32` does not occur in a slash-free string. -/
theorem occursIn32_false_no_slash (s : List Char) (h : '/' ∉ s) :
    occursIn ('/' :: '3' :: '2' :: []) s = false := by
  induction s with
  | nil => rfl
  | cons c rest ih =>
    have hc : c ≠ '/' := by
      intro hce
      subst hce
      exact h (List.mem_cons_self _ _)
    have h2 : '/' ∉ rest := fun hm => h (List.mem_cons_of_mem _ hm)
    have hbeq : ('/' == c) = false := by
      simp
      intro hcontra
      exact hc hcontra.symm
    simp [occursIn, seqStarts, hbeq, ih h2]

/-- `/32` does not occur in `l ++ / :: q` when `l` and `q` are slash-free and
`q` does not start with `32`. -/
theorem occursIn32_false_slash (l q : List Char) (hl : '/' ∉ l)
    (hq32 : seqStarts ('3' :: '2' :: []) q = false) (hq : '/' ∉ q) :
    occursIn ('/' :: '3' :: '2' :: []) (l ++ '/' :: q) = false := by
  induction l with
  | nil =>
    show occursIn ('/' :: '3' :: '2' :: []) ('/' :: q) = false
    simp [occursIn, seqStarts, hq32, occursIn32_false_no_slash q hq]
  | cons c l2 ih =>
    have hc : c ≠ '/' := by
      intro hce
      subst hce
      exact hl (List.mem_cons_self _ _)
    have h2 : '/' ∉ l2 := fun hm => hl (List.mem_cons_of_mem _ hm)
    have hbeq : ('/' == c) = false := by
      simp
      intro hcontra
      exact hc hcontra.symm
    simp [occursIn, seqStarts, hbeq, ih h2]

/-- `pySplitChar` never returns the empty list of chunks. -/
theorem pySplit_ne_nil (sep : Char) : ∀ l, pySplitChar sep l ≠ [] := by
  intro l
  induction l with
  | nil => simp [pySplitChar]
  | cons c rest ih =>
    by_cases hc : c = sep
    · simp [pySplitChar, hc]
    · simp only [pySplitChar, if_neg hc]
      cases hr : pySplitChar sep rest with
      | nil => simp
      | cons h t => simp

/-- Splitting a separator-free string yields a single chunk. -/
theorem pySplit_no_sep (sep : Char) (l : List Char) (h : sep ∉ l) :
    pySplitChar sep l = [l] := by
  induction l with
  | nil => rfl
  | cons c rest ih =>
    have hc : ¬ c = sep := by
      intro hcs
      subst hcs
      exact h (List.mem_cons_self _ _)
    have h2 : sep ∉ rest := fun hm => h (List.mem_cons_of_mem _ hm)
    simp only [pySplitChar, if_neg hc]
    rw [ih h2]

/-- Splitting peels off a separator-free leading chunk. -/
theorem pySplit_append_sep (sep : Char) (l t : List Char) (h : sep ∉ l) :
    pySplitChar sep (l ++ sep :: t) = l :: pySplitChar sep t := by
  induction l with
  | nil => simp [pySplitChar]
  | cons c rest ih =>
    have hc : ¬ c = sep := by
      intro hcs
      subst hcs
      exact h (List.mem_cons_self _ _)
    have h2 : sep ∉ rest := fun hm => h (List.mem_cons_of_mem _ hm)
    simp only [List.cons_append, pySplitChar, if_neg hc, List.append_eq]
    rw [ih h2]

/-- A character whose `isDigit` is false is not in an all-digit string. -/
theorem not_mem_of_all_digits (c : Char) (hc : c.isDigit = false) (l : List Char)
    (h : l.all Char.isDigit = true) : c ∉ l := by
  intro hm
  have h2 := List.all_eq_true.mp h c hm
  rw [hc] at h2
  exact Bool.false_ne_true h2

/-- A string containing a dot is not all digits. -/
theorem all_digits_false_of_dot (v : List Char) (h : '.' ∈ v) :
    v.all Char.isDigit = false := by
  cases hall : v.all Char.isDigit with
  | false => rfl
  | true => exact absurd (List.all_eq_true.mp hall '.' h) (by decide)

/-- A non-empty list has `isEmpty = false`. -/
theorem isEmpty_false_of_ne_nil (l : List Char) (h : l ≠ []) : l.isEmpty = false := by
  cases l with
  | nil => exact absurd rfl h
  | cons c rest => rfl

/-- A slash is not an element of a dotted quad with slash-free components. -/
theorem slash_not_mem_quad (p0 p1 p2 p3 : List Char)
    (h0 : '/' ∉ p0) (h1 : '/' ∉ p1) (h2 : '/' ∉ p2) (h3 : '/' ∉ p3) :
    '/' ∉ dottedQuad p0 p1 p2 p3 := by
  simp only [dottedQuad, List.mem_append, List.mem_cons]
  rintro (h | h | h | h | h | h | h)
  · exact h0 h
  · exact absurd h (by decide)
  · exact h1 h
  · exact absurd h (by decide)
  · exact h2 h
  · exact absurd h (by decide)
  · exact h3 h

/-- Splitting a dotted quad with dot-free components on `.` yields the four
components. -/
theorem pySplit_quad (p0 p1 p2 p3 : List Char)
    (h0 : '.' ∉ p0) (h1 : '.' ∉ p1) (h2 : '.' ∉ p2) (h3 : '.' ∉ p3) :
    pySplitChar '.' (dottedQuad p0 p1 p2 p3) = [p0, p1, p2, p3] := by
  simp only [dottedQuad]
  rw [pySplit_append_sep '.' p0 _ h0, pySplit_append_sep '.' p1 _ h1,
    pySplit_append_sep '.' p2 _ h2, pySplit_no_sep '.' p3 h3]

/-- The IP regex accepts a dotted quad of non-empty digit groups. -/
theorem matchIpRegex_quad (p0 p1 p2 p3 : List Char)
    (h0n : p0 ≠ []) (h0d : p0.all Char.isDigit = true)
    (h1n : p1 ≠ []) (h1d : p1.all Char.isDigit = true)
    (h2n : p2 ≠ []) (h2d : p2.all Char.isDigit = true)
    (h3n : p3 ≠ []) (h3d : p3.all Char.isDigit = true) :
    matchIpRegex (dottedQuad p0 p1 p2 p3) = true := by
  have hs0 : '/' ∉ p0 := not_mem_of_all_digits '/' (by decide) p0 h0d
  have hs1 : '/' ∉ p1 := not_mem_of_all_digits '/' (by decide) p1 h1d
  have hs2 : '/' ∉ p2 := not_mem_of_all_digits '/' (by decide) p2 h2d
  have hs3 : '/' ∉ p3 := not_mem_of_all_digits '/' (by decide) p3 h3d
  have hd0 : '.' ∉ p0 := not_mem_of_all_digits '.' (by decide) p0 h0d
  have hd1 : '.' ∉ p1 := not_mem_of_all_digits '.' (by decide) p1 h1d
  have hd2 : '.' ∉ p2 := not_mem_of_all_digits '.' (by decide) p2 h2d
  have hd3 : '.' ∉ p3 := not_mem_of_all_digits '.' (by decide) p3 h3d
  have hslq : '/' ∉ dottedQuad p0 p1 p2 p3 := slash_not_mem_quad p0 p1 p2 p3 hs0 hs1 hs2 hs3
  simp only [matchIpRegex]
  rw [pySplit_no_sep '/' _ hslq]
  dsimp only
  rw [pySplit_quad p0 p1 p2 p3 hd0 hd1 hd2 hd3]
  dsimp only
  simp [isEmpty_false_of_ne_nil _ h0n, h0d, isEmpty_false_of_ne_nil _ h1n, h1d,
    isEmpty_false_of_ne_nil _ h2n, h2d, isEmpty_false_of_ne_nil _ h3n, h3d]

/-- The IP regex accepts a dotted quad of non-empty digit groups followed by
`/` and a non-empty digit group. -/
theorem matchIpRegex_quad_slash (p0 p1 p2 p3 q : List Char)
    (h0n : p0 ≠ []) (h0d : p0.all Char.isDigit = true)
    (h1n : p1 ≠ []) (h1d : p1.all Char.isDigit = true)
    (h2n : p2 ≠ []) (h2d : p2.all Char.isDigit = true)
    (h3n : p3 ≠ []) (h3d : p3.all Char.isDigit = true)
    (hqn : q ≠ []) (hqd : q.all Char.isDigit = true) :
    matchIpRegex (dottedQuad p0 p1 p2 p3 ++ '/' :: q) = true := by
  have hs0 : '/' ∉ p0 := not_mem_of_all_digits '/' (by decide) p0 h0d
  have hs1 : '/' ∉ p1 := not_mem_of_all_digits '/' (by decide) p1 h1d
  have hs2 : '/' ∉ p2 := not_mem_of_all_digits '/' (by decide) p2 h2d
  have hs3 : '/' ∉ p3 := not_mem_of_all_digits '/' (by decide) p3 h3d
  have hd0 : '.' ∉ p0 := not_mem_of_all_digits '.' (by decide) p0 h0d
  have hd1 : '.' ∉ p1 := not_mem_of_all_digits '.' (by decide) p1 h1d
  have hd2 : '.' ∉ p2 := not_mem_of_all_digits '.' (by decide) p2 h2d
  have hd3 : '.' ∉ p3 := not_mem_of_all_digits '.' (by decide) p3 h3d
  have hqs : '/' ∉ q := not_mem_of_all_digits '/' (by decide) q hqd
  have hslq : '/' ∉ dottedQuad p0 p1 p2 p3 := slash_not_mem_quad p0 p1 p2 p3 hs0 hs1 hs2 hs3
  simp only [matchIpRegex]
  rw [pySplit_append_sep '/' _ q hslq, pySplit_no_sep '/' q hqs]
  dsimp only
  rw [pySplit_quad p0 p1 p2 p3 hd0 hd1 hd2 hd3]
  dsimp only
  simp [isEmpty_false_of_ne_nil _ h0n, h0d, isEmpty_false_of_ne_nil _ h1n, h1d,
    isEmpty_false_of_ne_nil _ h2n, h2d, isEmpty_false_of_ne_nil _ h3n, h3d,
    isEmpty_false_of_ne_nil _ hqn, hqd]

/-- `mask_ip_list` of a plain dotted quad masks the last two octets. -/
theorem mask_ip_list_quad (p0 p1 p2 p3 : List Char)
    (hd0 : '.' ∉ p0) (hd1 : '.' ∉ p1) (hd2 : '.' ∉ p2) (hd3 : '.' ∉ p3)
    (hs0 : '/' ∉ p0) (hs1 : '/' ∉ p1) (hs2 : '/' ∉ p2) (hs3 : '/' ∉ p3) :
    mask_ip_list (dottedQuad p0 p1 p2 p3) = maskedQuad p0 p1 := by
  have hslq : '/' ∉ dottedQuad p0 p1 p2 p3 := slash_not_mem_quad p0 p1 p2 p3 hs0 hs1 hs2 hs3
  simp only [mask_ip_list]
  rw [remove32_no_slash _ hslq, pySplit_quad p0 p1 p2 p3 hd0 hd1 hd2 hd3]
  dsimp only
  rw [occursIn32_false_no_slash _ hslq]
  simp [maskedQuad]

/-- `mask_ip_list` of a dotted quad with `/32` suffix masks the last two
octets and keeps the `/32`. -/
theorem mask_ip_list_quad32 (p0 p1 p2 p3 : List Char)
    (hd0 : '.' ∉ p0) (hd1 : '.' ∉ p1) (hd2 : '.' ∉ p2) (hd3 : '.' ∉ p3)
    (hs0 : '/' ∉ p0) (hs1 : '/' ∉ p1) (hs2 : '/' ∉ p2) (hs3 : '/' ∉ p3) :
    mask_ip_list (dottedQuad p0 p1 p2 p3 ++ ('/' :: '3' :: '2' :: []))
      = maskedQuad p0 p1 ++ ('/' :: '3' :: '2' :: []) := by
  have hslq : '/' ∉ dottedQuad p0 p1 p2 p3 := slash_not_mem_quad p0 p1 p2 p3 hs0 hs1 hs2 hs3
  have hstr : remove32 (dottedQuad p0 p1 p2 p3 ++ ('/' :: '3' :: '2' :: []))
      = dottedQuad p0 p1 p2 p3 := by
    rw [remove32_append _ _ hslq, show remove32 ('/' :: '3' :: '2' :: []) = [] from rfl,
      List.append_nil]
  have hocc := occursIn_append_of_seqStarts ('/' :: '3' :: '2' :: [])
    ('/' :: '3' :: '2' :: []) (by decide) (dottedQuad p0 p1 p2 p3)
  simp only [mask_ip_list]
  rw [hstr, pySplit_quad p0 p1 p2 p3 hd0 hd1 hd2 hd3]
  dsimp only
  rw [hocc]
  simp [maskedQuad]

/-- `mask_ip_list` of a dotted quad with a CIDR suffix not beginning with
`32` masks the last two octets and drops the suffix. -/
theorem mask_ip_list_quad_other (p0 p1 p2 p3 q : List Char)
    (hd0 : '.' ∉ p0) (hd1 : '.' ∉ p1) (hd2 : '.' ∉ p2) (hd3 : '.' ∉ p3)
    (hs0 : '/' ∉ p0) (hs1 : '/' ∉ p1) (hs2 : '/' ∉ p2) (hs3 : '/' ∉ p3)
    (hq32 : ∀ rest, q ≠ '3' :: '2' :: rest) (hqd : '.' ∉ q) (hqs : '/' ∉ q) :
    mask_ip_list (dottedQuad p0 p1 p2 p3 ++ '/' :: q) = maskedQuad p0 p1 := by
  have hslq : '/' ∉ dottedQuad p0 p1 p2 p3 := slash_not_mem_quad p0 p1 p2 p3 hs0 hs1 hs2 hs3
  have hd3q : '.' ∉ p3 ++ '/' :: q := by
    intro hmem
    rcases List.mem_append.mp hmem with h | h
    · exact hd3 h
    · rcases List.mem_cons.mp h with h2 | h2
      · exact absurd h2 (by decide)
      · exact hqd h2
  have hstr : remove32 (dottedQuad p0 p1 p2 p3 ++ '/' :: q)
      = dottedQuad p0 p1 p2 (p3 ++ '/' :: q) := by
    rw [remove32_append _ _ hslq, remove32_slash_cons q hq32, remove32_no_slash q hqs]
    simp [dottedQuad]
  have hsplit : pySplitChar '.' (dottedQuad p0 p1 p2 (p3 ++ '/' :: q))
      = [p0, p1, p2, p3 ++ '/' :: q] := pySplit_quad p0 p1 p2 _ hd0 hd1 hd2 hd3q
  have hocc : occursIn ('/' :: '3' :: '2' :: []) (dottedQuad p0 p1 p2 p3 ++ '/' :: q)
      = false :=
    occursIn32_false_slash _ q hslq (seqStarts32_false q hq32) hqs
  simp only [mask_ip_list]
  rw [hstr, hsplit]
  dsimp only
  rw [hocc]
  simp [maskedQuad]

/-- The `"ip"` kind of `mask_sensitive_string` is `mask_ip_address`. -/
theorem mask_ip_kind_eq (v : List Char) :
    mask_sensitive_string true (String.mk v) "ip" = String.mk (mask_ip_list v) := rfl

/-- The `"auto"` kind applies IP masking to a value that is not all digits
and matches the IP regex. -/
theorem mask_auto_eq (v : List Char) (hnd : v.all Char.isDigit = false)
    (hrx : matchIpRegex v = true) :
    mask_sensitive_string true (String.mk v) "auto" = String.mk (mask_ip_list v) := by
  have htl : (String.mk v).toList = v := rfl
  simp [mask_sensitive_string, htl, hnd, hrx, mask_ip_address]

/-- C7 counterexample: masking `10.0.0.0/24` with kind ip drops the `/24`
suffix instead of preserving it. -/
theorem mask_ip_cidr24_dropped :
    mask_sensitive_string true "10.0.0.0/24" "ip" = "10.0.***.***"
    ∧ mask_sensitive_string true "10.0.0.0/24" "ip" ≠ "10.0.***.***/24" := by
  constructor
  · decide
  · decide

/-- C7 (amended): with masking enabled, for every dotted quad of non-empty
digit octets, kind ip and auto-detection replace the last two octets with
`***` keeping the first two; a `/32` CIDR suffix is preserved in the output,
while a CIDR suffix whose digits do not begin with `32` is dropped from the
output (absorbed into the masked fourth octet). -/
theorem mask_ip_last_two_octets (p0 p1 p2 p3 : List Char)
    (h0 : p0 ≠ [] ∧ p0.all Char.isDigit = true)
    (h1 : p1 ≠ [] ∧ p1.all Char.isDigit = true)
    (h2 : p2 ≠ [] ∧ p2.all Char.isDigit = true)
    (h3 : p3 ≠ [] ∧ p3.all Char.isDigit = true) :
    (mask_sensitive_string true (String.mk (dottedQuad p0 p1 p2 p3)) "ip"
        = String.mk (maskedQuad p0 p1)
      ∧ mask_sensitive_string true (String.mk (dottedQuad p0 p1 p2 p3)) "auto"
        = String.mk (maskedQuad p0 p1))
    ∧ (mask_sensitive_string true
          (String.mk (dottedQuad p0 p1 p2 p3 ++ ('/' :: '3' :: '2' :: []))) "ip"
        = String.mk (maskedQuad p0 p1 ++ ('/' :: '3' :: '2' :: []))
      ∧ mask_sensitive_string true
          (String.mk (dottedQuad p0 p1 p2 p3 ++ ('/' :: '3' :: '2' :: []))) "auto"
        = String.mk (maskedQuad p0 p1 ++ ('/' :: '3' :: '2' :: [])))
    ∧ ∀ q : List Char, q ≠ [] → q.all Char.isDigit = true →
        (∀ rest, q ≠ '3' :: '2' :: rest) →
        mask_sensitive_string true (String.mk (dottedQuad p0 p1 p2 p3 ++ '/' :: q)) "ip"
          = String.mk (maskedQuad p0 p1)
        ∧ mask_sensitive_string true (String.mk (dottedQuad p0 p1 p2 p3 ++ '/' :: q)) "auto"
          = String.mk (maskedQuad p0 p1) := by
  obtain ⟨h0n, h0d⟩ := h0
  obtain ⟨h1n, h1d⟩ := h1
  obtain ⟨h2n, h2d⟩ := h2
  obtain ⟨h3n, h3d⟩ := h3
  have hd0 : '.' ∉ p0 := not_mem_of_all_digits '.' (by decide) p0 h0d
  have hd1 : '.' ∉ p1 := not_mem_of_all_digits '.' (by decide) p1 h1d
  have hd2 : '.' ∉ p2 := not_mem_of_all_digits '.' (by decide) p2 h2d
  have hd3 : '.' ∉ p3 := not_mem_of_all_digits '.' (by decide) p3 h3d
  have hs0 : '/' ∉ p0 := not_mem_of_all_digits '/' (by decide) p0 h0d
  have hs1 : '/' ∉ p1 := not_mem_of_all_digits '/' (by decide) p1 h1d
  have hs2 : '/' ∉ p2 := not_mem_of_all_digits '/' (by decide) p2 h2d
  have hs3 : '/' ∉ p3 := not_mem_of_all_digits '/' (by decide) p3 h3d
  have hdotmem : '.' ∈ dottedQuad p0 p1 p2 p3 := by
    simp [dottedQuad]
  refine ⟨⟨?_, ?_⟩, ⟨?_, ?_⟩, ?_⟩
  · rw [mask_ip_kind_eq, mask_ip_list_quad p0 p1 p2 p3 hd0 hd1 hd2 hd3 hs0 hs1 hs2 hs3]
  · rw [mask_auto_eq _ (all_digits_false_of_dot _ hdotmem)
      (matchIpRegex_quad p0 p1 p2 p3 h0n h0d h1n h1d h2n h2d h3n h3d),
      mask_ip_list_quad p0 p1 p2 p3 hd0 hd1 hd2 hd3 hs0 hs1 hs2 hs3]
  · rw [mask_ip_kind_eq, mask_ip_list_quad32 p0 p1 p2 p3 hd0 hd1 hd2 hd3 hs0 hs1 hs2 hs3]
  · rw [mask_auto_eq _
      (all_digits_false_of_dot _ (List.mem_append.mpr (Or.inl hdotmem)))
      (matchIpRegex_quad_slash p0 p1 p2 p3 ('3' :: '2' :: []) h0n h0d h1n h1d h2n h2d
        h3n h3d (by decide) (by decide)),
      mask_ip_list_quad32 p0 p1 p2 p3 hd0 hd1 hd2 hd3 hs0 hs1 hs2 hs3]
  · intro q hqn hqall hq32
    have hqd : '.' ∉ q := not_mem_of_all_digits '.' (by decide) q hqall
    have hqs : '/' ∉ q := not_mem_of_all_digits '/' (by decide) q hqall
    constructor
    · rw [mask_ip_kind_eq,
        mask_ip_list_quad_other p0 p1 p2 p3 q hd0 hd1 hd2 hd3 hs0 hs1 hs2 hs3 hq32 hqd hqs]
    · rw [mask_auto_eq _
        (all_digits_false_of_dot _ (List.mem_append.mpr (Or.inl hdotmem)))
        (matchIpRegex_quad_slash p0 p1 p2 p3 q h0n h0d h1n h1d h2n h2d h3n h3d hqn hqall),
        mask_ip_list_quad_other p0 p1 p2 p3 q hd0 hd1 hd2 hd3 hs0 hs1 hs2 hs3 hq32 hqd hqs]

/-- Witness for the IP-masking theorem at `192.168.1.100/32`. -/
theorem mask_ip_last_two_octets_witness :
    ("192".toList ≠ [] ∧ "192".toList.all Char.isDigit = true)
    ∧ mask_sensitive_string true "192.168.1.100/32" "auto" = "192.168.***.***/32" := by
  refine ⟨⟨by decide, by decide⟩, ?_⟩
  have h := (mask_ip_last_two_octets "192".toList "168".toList "1".toList "100".toList
    ⟨by decide, by decide⟩ ⟨by decide, by decide⟩ ⟨by decide, by decide⟩
    ⟨by decide, by decide⟩).2.1.2
  rw [show ("192.168.1.100/32" : String)
      = String.mk (dottedQuad "192".toList "168".toList "1".toList "100".toList
        ++ ('/' :: '3' :: '2' :: [])) from by decide]
  rw [h]
  decide
